import Mathlib

/-!
# kubeletstatsreceiver: the collection cycle and the volume label cache

A shallow embedding of `receiver/kubeletstatsreceiver/runnable.go`
(`newRunnable`, `Setup`, `Run`, `detailedPVCLabelsSetter`) and the properties
of its collection cycle and of its persistent-volume label cache.

Modelling conventions.

* A Go `map[string]T` is an `AList` (an association list without duplicate
  keys); `m[k]` is `AList.lookup`, `m[k] = v` is `AList.insert`, and
  `for k, v := range m` folds over the entries.  Reading a missing key of a
  `map[string]map[string]string` yields the nil map, which is `none` here, so
  `m[k] == nil` is `lookup k m = none`.  Maps that the code writes to (the
  cache built by `make`, the label map handed in by the translator) are
  writable, non-nil maps.
* A Go `error` is its message; a `nil` error is `none`.
* Everything outside the file (the kubelet endpoints, the Kubernetes API, the
  consumer, the translation in package `kubelet`) is a parameter.  Calls to it
  thread an explicit `World`, so that answers may differ from call to call, and
  every call is appended to a trace of events.
-/

namespace KubeletStats

/-- A Go `error` value, identified with its message. -/
abbrev Error := String

/-- A Go `map[string]string` of metric labels. -/
abbrev Labels := AList (fun _ : String => String)

/-- The type of `cachedVolumeLabels`, `map[string]map[string]string`. -/
abbrev VolumeLabels := AList (fun _ : String => Labels)

/-- The types the receiver only passes around. -/
structure External where
  /-- State of everything outside the process (kubelet, API server, consumer). -/
  World : Type
  /-- Type `kubelet.RestClient`. -/
  RestClient : Type
  /-- Type `stats.Summary`, the answer of `/stats/summary`. -/
  Summary : Type
  /-- Type `v1.PodList`, the answer of `/pods`. -/
  PodList : Type
  /-- Type `v1.PersistentVolumeSource`. -/
  PersistentVolumeSource : Type
  /-- Type `consumerdata.MetricsData`, one element of `mds`. -/
  MetricsData : Type
  /-- Type `pdata.ResourceMetrics`; a `pdata.Metrics` is a list of them. -/
  ResourceMetrics : Type

/-- The fields of `v1.PersistentVolumeClaim` that the receiver reads. -/
structure PersistentVolumeClaim where
  /-- Field `pvc.Name`. -/
  Name : String
  /-- Field `pvc.Spec.VolumeName`. -/
  VolumeName : String

/-- The field of `v1.PersistentVolume` that the receiver reads. -/
structure PersistentVolume (X : External) where
  /-- Field `pv.Spec.PersistentVolumeSource`. -/
  PersistentVolumeSource : X.PersistentVolumeSource

/-- The two calls made on `kubernetes.Interface`. -/
structure K8sClient (X : External) where
  /-- Call `CoreV1().PersistentVolumeClaims(namespace).Get(ctx, name, ...)`. -/
  GetPersistentVolumeClaim :
    X.World → (nspace name : String) → Except Error PersistentVolumeClaim × X.World
  /-- Call `CoreV1().PersistentVolumes().Get(ctx, name, ...)`. -/
  GetPersistentVolume :
    X.World → (name : String) → Except Error (PersistentVolume X) × X.World

/-- Type `kubelet.StatsProvider`. -/
structure StatsProvider (X : External) where
  /-- Method `StatsSummary()`. -/
  StatsSummary : X.World → Except Error X.Summary × X.World

/-- Type `kubelet.MetadataProvider`. -/
structure MetadataProvider (X : External) where
  /-- Method `Pods()`. -/
  Pods : X.World → Except Error X.PodList × X.World

/-- Type `consumer.Metrics`. -/
structure Consumer (X : External) where
  /-- Method `ConsumeMetrics(ctx, metrics)`. -/
  ConsumeMetrics : X.World → List X.ResourceMetrics → Option Error × X.World

/-- What a cycle does that is visible outside of it, in order. -/
inductive Event (X : External) where
  /-- A call of `statsProvider.StatsSummary()`. -/
  | statsSummary
  /-- A call of `metadataProvider.Pods()`. -/
  | pods
  /-- A call of `logger.Error(msg, zap.Error(err))`. -/
  | logError (msg : String) (err : Error)
  /-- A call of `kubelet.MetricsData` with the given pod metadata. -/
  | metricsData (podsMetadata : Option X.PodList)
  /-- A call of `PersistentVolumeClaims(namespace).Get`. -/
  | getPersistentVolumeClaim (nspace name : String)
  /-- A call of `PersistentVolumes().Get`. -/
  | getPersistentVolume (name : String)
  /-- A call of `obsreport.StartMetricsReceiveOp`. -/
  | startMetricsReceiveOp
  /-- A call of `consumer.ConsumeMetrics`. -/
  | consumeMetrics (metrics : List X.ResourceMetrics)
  /-- A call of `obsreport.EndMetricsReceiveOp`. -/
  | endMetricsReceiveOp (numPoints : Nat) (err : Option Error)

/-- The surroundings of the process: the outside world and the trace so far. -/
structure Env (X : External) where
  world : X.World
  trace : List (Event X)

/-- Appends one event to the trace and moves to the next world. -/
def Env.step {X : External} (e : Env X) (ev : Event X) (w : X.World) : Env X :=
  { world := w, trace := e.trace ++ [ev] }

/-- Appends one event to the trace. -/
def Env.record {X : External} (e : Env X) (ev : Event X) : Env X :=
  { world := e.world, trace := e.trace ++ [ev] }

/-- What `kubelet.MetricsData` does while it builds its result: it may log, and
it may call the `DetailedPVCLabelsSetter` of the metadata it was given, any
number of times, each time going on from the error and the label map that the
call left behind. -/
inductive Translation (α : Type) where
  | done (result : α)
  | logError (msg : String) (err : Error) (next : Translation α)
  | setDetailedPVCLabels (volCacheID volumeClaim nspace : String) (labels : Labels)
      (next : Option Error → Labels → Translation α)

/-- The functions of other packages that `runnable.go` calls. -/
structure Deps (X : External) where
  /-- Function `kubelet.NewStatsProvider`. -/
  NewStatsProvider : X.RestClient → StatsProvider X
  /-- Function `kubelet.NewMetadataProvider`. -/
  NewMetadataProvider : X.RestClient → MetadataProvider X
  /-- Function `kubelet.GetPersistentVolumeLabels(source, labels)`, which writes
  into `labels`; here it returns the map it leaves behind. -/
  GetPersistentVolumeLabels : X.PersistentVolumeSource → Labels → Labels
  /-- Function `kubelet.MetricsData(logger, summary, metadata, typeStr, groups)`
  with `metadata = kubelet.NewMetadata(labels, podsMetadata, setter)`. -/
  MetricsData : X.Summary → List String → Option X.PodList →
    AList (fun _ : String => Bool) → Translation (List X.MetricsData)
  /-- Function `internaldata.OCToMetrics(...).ResourceMetrics()`. -/
  OCToMetrics : X.MetricsData → List X.ResourceMetrics
  /-- Second result of `metrics.MetricAndDataPointCount()`. -/
  DataPointCount : List X.ResourceMetrics → Nat

/-- The struct `runnable` (without `ctx`, `receiverID` and `logger`, whose
calls are events of the trace). -/
structure runnable (X : External) where
  statsProvider : Option (StatsProvider X)
  metadataProvider : Option (MetadataProvider X)
  consumer : Consumer X
  restClient : X.RestClient
  extraMetadataLabels : List String
  metricGroupsToCollect : AList (fun _ : String => Bool)
  k8sAPIClient : Option (K8sClient X)
  cachedVolumeLabels : VolumeLabels

/-- The struct `receiverOptions`, as far as `newRunnable` reads it. -/
structure receiverOptions (X : External) where
  extraMetadataLabels : List String
  metricGroupsToCollect : AList (fun _ : String => Bool)
  k8sAPIClient : Option (K8sClient X)

/-- Function `newRunnable`. -/
def newRunnable {X : External} (consumer : Consumer X) (restClient : X.RestClient)
    (rOptions : receiverOptions X) : runnable X :=
  { statsProvider := none
    metadataProvider := none
    consumer := consumer
    restClient := restClient
    extraMetadataLabels := rOptions.extraMetadataLabels
    metricGroupsToCollect := rOptions.metricGroupsToCollect
    k8sAPIClient := rOptions.k8sAPIClient
    cachedVolumeLabels := ∅ }

/-- Method `Setup`: the runnable it leaves behind (it returns `nil`). -/
def Setup {X : External} (k : Deps X) (r : runnable X) : runnable X :=
  { r with
    statsProvider := some (k.NewStatsProvider r.restClient)
    metadataProvider := some (k.NewMetadataProvider r.restClient) }

/-- The loop `for k, v := range src { labels[k] = v }`; ranging over the nil
map (`none`) does nothing. -/
def rangeAssign (src : Option Labels) (labels : Labels) : Labels :=
  match src with
  | none => labels
  | some m => m.foldl (fun acc k v => acc.insert k v) labels

/-- What a call of the function returned by `detailedPVCLabelsSetter` leaves
behind: the error it returns, the label map it was given, the runnable (with
its cache) and the surroundings. -/
structure SetterResult (X : External) where
  err : Option Error
  labels : Labels
  r : runnable X
  env : Env X

/-- The error built by `fmt.Errorf` for a claim without a volume name. -/
def noVolumeNameError (pvc : PersistentVolumeClaim) : Error :=
  "PersistentVolumeClaim " ++ pvc.Name ++ " does not have a volume name"

/-- The function returned by method `detailedPVCLabelsSetter`. -/
def detailedPVCLabelsSetter {X : External} (k : Deps X) (r : runnable X)
    (volCacheID volumeClaim nspace : String) (labels : Labels) (e : Env X) :
    SetterResult X :=
  match r.k8sAPIClient with
  | none => { err := none, labels := labels, r := r, env := e }
  | some client =>
    match r.cachedVolumeLabels.lookup volCacheID with
    | some _ =>
      { err := none
        labels := rangeAssign (r.cachedVolumeLabels.lookup volCacheID) labels
        r := r, env := e }
    | none =>
      match client.GetPersistentVolumeClaim e.world nspace volumeClaim with
      | (Except.error err, w1) =>
        { err := some err, labels := labels, r := r
          env := e.step (Event.getPersistentVolumeClaim nspace volumeClaim) w1 }
      | (Except.ok pvc, w1) =>
        let e1 := e.step (Event.getPersistentVolumeClaim nspace volumeClaim) w1
        let volName := pvc.VolumeName
        if volName = "" then
          { err := some (noVolumeNameError pvc), labels := labels, r := r, env := e1 }
        else
          match client.GetPersistentVolume e1.world volName with
          | (Except.error err, w2) =>
            { err := some err, labels := labels, r := r
              env := e1.step (Event.getPersistentVolume volName) w2 }
          | (Except.ok pv, w2) =>
            let e2 := e1.step (Event.getPersistentVolume volName) w2
            let labelsToCache := k.GetPersistentVolumeLabels pv.PersistentVolumeSource ∅
            let r1 := { r with
              cachedVolumeLabels := r.cachedVolumeLabels.insert volCacheID labelsToCache }
            { err := none
              labels := rangeAssign (r1.cachedVolumeLabels.lookup volCacheID) labels
              r := r1, env := e2 }

/-- What interpreting a translation leaves behind. -/
structure TranslationResult (X : External) (α : Type) where
  result : α
  r : runnable X
  env : Env X

/-- Runs what `kubelet.MetricsData` does, with the function returned by
`r.detailedPVCLabelsSetter()` as the setter of its metadata and `r.logger` as
its logger. -/
def runTranslation {X : External} {α : Type} (k : Deps X) :
    Translation α → runnable X → Env X → TranslationResult X α
  | Translation.done a, r, e => { result := a, r := r, env := e }
  | Translation.logError msg err next, r, e =>
    runTranslation k next r (e.record (Event.logError msg err))
  | Translation.setDetailedPVCLabels volCacheID volumeClaim nspace labels next, r, e =>
    let res := detailedPVCLabelsSetter k r volCacheID volumeClaim nspace labels e
    runTranslation k (next res.err res.labels) res.r res.env

/-- How a call of `Run` ends: it returns an error value (`none` is `nil`), or it
dereferences a provider that `Setup` has not set. -/
inductive Outcome where
  | returned (err : Option Error)
  | nilDereference

/-- What a call of `Run` leaves behind. -/
structure RunResult (X : External) where
  outcome : Outcome
  r : runnable X
  env : Env X

/-- Lines 97 to 115 of `Run`: translate, hand the metrics to the consumer, and
report. -/
def translateAndConsume {X : External} (k : Deps X) (r : runnable X)
    (summary : X.Summary) (podsMetadata : Option X.PodList) (e : Env X) : RunResult X :=
  let t := runTranslation k
    (k.MetricsData summary r.extraMetadataLabels podsMetadata r.metricGroupsToCollect)
    r (e.record (Event.metricsData podsMetadata))
  let metrics := t.result.foldl (fun acc md => acc ++ k.OCToMetrics md) []
  let e1 := t.env.record Event.startMetricsReceiveOp
  match r.consumer.ConsumeMetrics e1.world metrics with
  | (some err, w) =>
    let e2 := (e1.step (Event.consumeMetrics metrics) w).record
      (Event.logError "ConsumeMetricsData failed" err)
    { outcome := Outcome.returned none, r := t.r
      env := e2.record (Event.endMetricsReceiveOp 0 (some err)) }
  | (none, w) =>
    let e2 := e1.step (Event.consumeMetrics metrics) w
    { outcome := Outcome.returned none, r := t.r
      env := e2.record (Event.endMetricsReceiveOp (k.DataPointCount metrics) none) }

/-- Method `Run`. -/
def Run {X : External} (k : Deps X) (r : runnable X) (e : Env X) : RunResult X :=
  match r.statsProvider with
  | none => { outcome := Outcome.nilDereference, r := r, env := e }
  | some sp =>
    match sp.StatsSummary e.world with
    | (Except.error err, w1) =>
      { outcome := Outcome.returned none, r := r
        env := (e.step Event.statsSummary w1).record
          (Event.logError "call to /stats/summary endpoint failed" err) }
    | (Except.ok summary, w1) =>
      let e1 := e.step Event.statsSummary w1
      if 0 < r.extraMetadataLabels.length then
        match r.metadataProvider with
        | none => { outcome := Outcome.nilDereference, r := r, env := e1 }
        | some mp =>
          match mp.Pods e1.world with
          | (Except.error err, w2) =>
            { outcome := Outcome.returned none, r := r
              env := (e1.step Event.pods w2).record
                (Event.logError "call to /pods endpoint failed" err) }
          | (Except.ok podsMetadata, w2) =>
            translateAndConsume k r summary (some podsMetadata) (e1.step Event.pods w2)
      else
        translateAndConsume k r summary none e1

/-- Whether an event is a call of `consumer.ConsumeMetrics`. -/
def Event.isConsumeMetrics {X : External} : Event X → Bool
  | Event.consumeMetrics _ => true
  | _ => false

/-- Whether an event is a call of `kubelet.MetricsData`. -/
def Event.isMetricsData {X : External} : Event X → Bool
  | Event.metricsData _ => true
  | _ => false

/-- Whether an event is a call of `metadataProvider.Pods`. -/
def Event.isPods {X : External} : Event X → Bool
  | Event.pods => true
  | _ => false

/-- Whether an event is a call of `logger.Error`. -/
def Event.isLogError {X : External} : Event X → Bool
  | Event.logError _ _ => true
  | _ => false

/-- Whether an event is a call of the Kubernetes API. -/
def Event.isAPICall {X : External} : Event X → Bool
  | Event.getPersistentVolumeClaim _ _ => true
  | Event.getPersistentVolume _ => true
  | _ => false

/-- The arguments of one call of the setter. -/
structure SetterCall where
  volCacheID : String
  volumeClaim : String
  nspace : String
  labels : Labels

/-- A sequence of calls of the setter, one after the other, each on the
runnable and the surroundings the one before left behind. -/
def runCalls {X : External} (k : Deps X) :
    List SetterCall → runnable X → Env X → runnable X × Env X
  | [], r, e => (r, e)
  | c :: cs, r, e =>
    let res := detailedPVCLabelsSetter k r c.volCacheID c.volumeClaim c.nspace c.labels e
    runCalls k cs res.r res.env

/-! ## A small instance

The world is the number of calls answered so far.  The API server knows the
claim `pvc-a` of namespace `ns1`, bound to the volume `vol-1` of zone
`us-east-1a`, and the claim `pvc-unbound` of the same namespace, bound to
nothing. -/

/-- The types of the small instance; a volume source is its zone. -/
abbrev demoX : External :=
  { World := Nat, RestClient := Bool × Bool, Summary := Unit, PodList := Unit
    PersistentVolumeSource := String, MetricsData := Nat, ResourceMetrics := Nat }

/-- The API server of the small instance. -/
def demoClient : K8sClient demoX :=
  { GetPersistentVolumeClaim := fun (w : Nat) nspace name =>
      if nspace = "ns1" ∧ name = "pvc-a" then
        (Except.ok { Name := "pvc-a", VolumeName := "vol-1" }, w + 1)
      else if nspace = "ns1" ∧ name = "pvc-unbound" then
        (Except.ok { Name := "pvc-unbound", VolumeName := "" }, w + 1)
      else (Except.error "persistentvolumeclaims not found", w + 1)
    GetPersistentVolume := fun (w : Nat) name =>
      if name = "vol-1" then
        (Except.ok { PersistentVolumeSource := ("us-east-1a" : String) }, w + 1)
      else (Except.error "persistentvolumes not found", w + 1) }

/-- The label map `{zone: us-east-1a}`. -/
def zoneLabels : Labels := (∅ : Labels).insert "zone" "us-east-1a"

/-- The surroundings at the start: no call answered, nothing traced. -/
def demoEnv : Env demoX := { world := (0 : Nat), trace := [] }

/-- The functions of the small instance.  A rest client says whether the
stats endpoint and the pods endpoint answer.  The translation resolves the
claim `pvc-a` once. -/
def demoDeps : Deps demoX :=
  { NewStatsProvider := fun (rc : Bool × Bool) =>
      { StatsSummary := fun (w : Nat) =>
          if rc.1 then (Except.ok (), w + 1) else (Except.error "connection refused", w + 1) }
    NewMetadataProvider := fun (rc : Bool × Bool) =>
      { Pods := fun (w : Nat) =>
          if rc.2 then (Except.ok (), w + 1) else (Except.error "connection refused", w + 1) }
    GetPersistentVolumeLabels := fun (zone : String) labels => labels.insert "zone" zone
    MetricsData := fun _ _ _ _ =>
      Translation.setDetailedPVCLabels "pod-1/data" "pvc-a" "ns1" ∅
        (fun _ _ => Translation.done [(1 : Nat)])
    OCToMetrics := fun (n : Nat) => [n]
    DataPointCount := fun (ms : List Nat) => ms.length }

/-- A consumer that accepts every batch. -/
def demoConsumer : Consumer demoX :=
  { ConsumeMetrics := fun (w : Nat) _ => (none, w + 1) }

/-- A consumer that rejects every batch. -/
def demoRejecting : Consumer demoX :=
  { ConsumeMetrics := fun (w : Nat) _ => (some "queue is full", w + 1) }

/-- A runnable of the small instance, as `newRunnable` builds it. -/
def demoRunnable (restClient : Bool × Bool) (extraMetadataLabels : List String)
    (k8sAPIClient : Option (K8sClient demoX)) : runnable demoX :=
  newRunnable demoConsumer restClient
    { extraMetadataLabels := extraMetadataLabels, metricGroupsToCollect := ∅
      k8sAPIClient := k8sAPIClient }

/-- A runnable whose cache holds the empty label set for `pod-1/data`. -/
def demoCached : runnable demoX :=
  { demoRunnable (true, true) [] (some demoClient) with
    cachedVolumeLabels := (∅ : VolumeLabels).insert "pod-1/data" ∅ }

/-- The label map `{zone: eu-west-1b, pod: pod-1}`. -/
def staleLabels : Labels :=
  ((∅ : Labels).insert "zone" "eu-west-1b").insert "pod" "pod-1"

/-- A runnable without API client whose cache holds `{zone: us-east-1a}` for
`pod-1/data`. -/
def demoNoClient : runnable demoX :=
  { demoRunnable (true, true) [] none with
    cachedVolumeLabels := (∅ : VolumeLabels).insert "pod-1/data" zoneLabels }

/-! ## The label merge -/

/-- Folding `labels[k] = v` over entries with distinct keys: a key of the
entries gets their value, every other key keeps what it had. -/
theorem lookup_foldl_insert (es : List (Sigma fun _ : String => String))
    (hes : es.NodupKeys) (labels : Labels) (key : String) :
    (es.foldl (fun acc a => acc.insert a.1 a.2) labels).lookup key =
      match List.dlookup key es with
      | some v => some v
      | none => labels.lookup key := by
  induction es generalizing labels with
  | nil => simp
  | cons a es ih =>
    obtain ⟨hnot, hrest⟩ := List.nodupKeys_cons.mp hes
    rw [List.foldl_cons, ih hrest]
    by_cases hk : key = a.1
    · subst hk
      have hnone : List.dlookup a.1 es = none := List.dlookup_eq_none.mpr hnot
      rw [hnone, List.dlookup_cons_eq]
      simp [AList.lookup_insert]
    · rw [List.dlookup_cons_ne _ _ hk, AList.lookup_insert_ne hk]

/-- The merge loop is an overlay of the source map on the label map. -/
theorem lookup_rangeAssign (m labels : Labels) (key : String) :
    (rangeAssign (some m) labels).lookup key =
      match m.lookup key with
      | some v => some v
      | none => labels.lookup key := by
  unfold rangeAssign AList.foldl
  exact lookup_foldl_insert m.entries m.nodupKeys labels key

/-! ## The paths through the setter -/

theorem setter_no_client {X : External} (k : Deps X) (r : runnable X)
    (volCacheID volumeClaim nspace : String) (labels : Labels) (e : Env X)
    (hc : r.k8sAPIClient = none) :
    detailedPVCLabelsSetter k r volCacheID volumeClaim nspace labels e =
      { err := none, labels := labels, r := r, env := e } := by
  simp [detailedPVCLabelsSetter, hc]

theorem setter_hit {X : External} (k : Deps X) (r : runnable X)
    (volCacheID volumeClaim nspace : String) (labels : Labels) (e : Env X)
    (client : K8sClient X) (cached : Labels)
    (hc : r.k8sAPIClient = some client)
    (hhit : r.cachedVolumeLabels.lookup volCacheID = some cached) :
    detailedPVCLabelsSetter k r volCacheID volumeClaim nspace labels e =
      { err := none, labels := rangeAssign (some cached) labels, r := r, env := e } := by
  simp [detailedPVCLabelsSetter, hc, hhit]

theorem setter_claim_error {X : External} (k : Deps X) (r : runnable X)
    (volCacheID volumeClaim nspace : String) (labels : Labels) (e : Env X)
    (client : K8sClient X) (err : Error) (w1 : X.World)
    (hc : r.k8sAPIClient = some client)
    (hmiss : r.cachedVolumeLabels.lookup volCacheID = none)
    (hpvc : client.GetPersistentVolumeClaim e.world nspace volumeClaim = (Except.error err, w1)) :
    detailedPVCLabelsSetter k r volCacheID volumeClaim nspace labels e =
      { err := some err, labels := labels, r := r
        env := e.step (Event.getPersistentVolumeClaim nspace volumeClaim) w1 } := by
  simp [detailedPVCLabelsSetter, hc, hmiss, hpvc]

theorem setter_no_volume_name {X : External} (k : Deps X) (r : runnable X)
    (volCacheID volumeClaim nspace : String) (labels : Labels) (e : Env X)
    (client : K8sClient X) (pvc : PersistentVolumeClaim) (w1 : X.World)
    (hc : r.k8sAPIClient = some client)
    (hmiss : r.cachedVolumeLabels.lookup volCacheID = none)
    (hpvc : client.GetPersistentVolumeClaim e.world nspace volumeClaim = (Except.ok pvc, w1))
    (hname : pvc.VolumeName = "") :
    detailedPVCLabelsSetter k r volCacheID volumeClaim nspace labels e =
      { err := some (noVolumeNameError pvc), labels := labels, r := r
        env := e.step (Event.getPersistentVolumeClaim nspace volumeClaim) w1 } := by
  simp [detailedPVCLabelsSetter, hc, hmiss, hpvc, hname]

theorem setter_volume_error {X : External} (k : Deps X) (r : runnable X)
    (volCacheID volumeClaim nspace : String) (labels : Labels) (e : Env X)
    (client : K8sClient X) (pvc : PersistentVolumeClaim) (w1 w2 : X.World) (err : Error)
    (hc : r.k8sAPIClient = some client)
    (hmiss : r.cachedVolumeLabels.lookup volCacheID = none)
    (hpvc : client.GetPersistentVolumeClaim e.world nspace volumeClaim = (Except.ok pvc, w1))
    (hname : pvc.VolumeName ≠ "")
    (hpv : client.GetPersistentVolume w1 pvc.VolumeName = (Except.error err, w2)) :
    detailedPVCLabelsSetter k r volCacheID volumeClaim nspace labels e =
      { err := some err, labels := labels, r := r
        env := (e.step (Event.getPersistentVolumeClaim nspace volumeClaim) w1).step
          (Event.getPersistentVolume pvc.VolumeName) w2 } := by
  simp [detailedPVCLabelsSetter, hc, hmiss, hpvc, hname, hpv, Env.step]

theorem setter_resolved {X : External} (k : Deps X) (r : runnable X)
    (volCacheID volumeClaim nspace : String) (labels : Labels) (e : Env X)
    (client : K8sClient X) (pvc : PersistentVolumeClaim) (w1 w2 : X.World)
    (pv : PersistentVolume X)
    (hc : r.k8sAPIClient = some client)
    (hmiss : r.cachedVolumeLabels.lookup volCacheID = none)
    (hpvc : client.GetPersistentVolumeClaim e.world nspace volumeClaim = (Except.ok pvc, w1))
    (hname : pvc.VolumeName ≠ "")
    (hpv : client.GetPersistentVolume w1 pvc.VolumeName = (Except.ok pv, w2)) :
    detailedPVCLabelsSetter k r volCacheID volumeClaim nspace labels e =
      { err := none
        labels := rangeAssign
          (some (k.GetPersistentVolumeLabels pv.PersistentVolumeSource ∅)) labels
        r := { r with cachedVolumeLabels := (r.cachedVolumeLabels.insert volCacheID
          (k.GetPersistentVolumeLabels pv.PersistentVolumeSource ∅)) }
        env := (e.step (Event.getPersistentVolumeClaim nspace volumeClaim) w1).step
          (Event.getPersistentVolume pvc.VolumeName) w2 } := by
  simp [detailedPVCLabelsSetter, hc, hmiss, hpvc, hname, hpv, Env.step, AList.lookup_insert]

/-- Every call of the setter takes one of its six paths. -/
theorem setter_cases {X : External} (k : Deps X) (r : runnable X)
    (volCacheID volumeClaim nspace : String) (labels : Labels) (e : Env X) :
    (r.k8sAPIClient = none ∧
      detailedPVCLabelsSetter k r volCacheID volumeClaim nspace labels e =
        { err := none, labels := labels, r := r, env := e }) ∨
    (∃ client cached, r.k8sAPIClient = some client ∧
      r.cachedVolumeLabels.lookup volCacheID = some cached ∧
      detailedPVCLabelsSetter k r volCacheID volumeClaim nspace labels e =
        { err := none, labels := rangeAssign (some cached) labels, r := r, env := e }) ∨
    (∃ client err w1, r.k8sAPIClient = some client ∧
      r.cachedVolumeLabels.lookup volCacheID = none ∧
      client.GetPersistentVolumeClaim e.world nspace volumeClaim = (Except.error err, w1) ∧
      detailedPVCLabelsSetter k r volCacheID volumeClaim nspace labels e =
        { err := some err, labels := labels, r := r
          env := e.step (Event.getPersistentVolumeClaim nspace volumeClaim) w1 }) ∨
    (∃ client pvc w1, r.k8sAPIClient = some client ∧
      r.cachedVolumeLabels.lookup volCacheID = none ∧
      client.GetPersistentVolumeClaim e.world nspace volumeClaim = (Except.ok pvc, w1) ∧
      pvc.VolumeName = "" ∧
      detailedPVCLabelsSetter k r volCacheID volumeClaim nspace labels e =
        { err := some (noVolumeNameError pvc), labels := labels, r := r
          env := e.step (Event.getPersistentVolumeClaim nspace volumeClaim) w1 }) ∨
    (∃ client pvc w1 err w2, r.k8sAPIClient = some client ∧
      r.cachedVolumeLabels.lookup volCacheID = none ∧
      client.GetPersistentVolumeClaim e.world nspace volumeClaim = (Except.ok pvc, w1) ∧
      pvc.VolumeName ≠ "" ∧
      client.GetPersistentVolume w1 pvc.VolumeName = (Except.error err, w2) ∧
      detailedPVCLabelsSetter k r volCacheID volumeClaim nspace labels e =
        { err := some err, labels := labels, r := r
          env := (e.step (Event.getPersistentVolumeClaim nspace volumeClaim) w1).step
            (Event.getPersistentVolume pvc.VolumeName) w2 }) ∨
    (∃ client pvc w1 pv w2, r.k8sAPIClient = some client ∧
      r.cachedVolumeLabels.lookup volCacheID = none ∧
      client.GetPersistentVolumeClaim e.world nspace volumeClaim = (Except.ok pvc, w1) ∧
      pvc.VolumeName ≠ "" ∧
      client.GetPersistentVolume w1 pvc.VolumeName = (Except.ok pv, w2) ∧
      detailedPVCLabelsSetter k r volCacheID volumeClaim nspace labels e =
        { err := none
          labels := rangeAssign
            (some (k.GetPersistentVolumeLabels pv.PersistentVolumeSource ∅)) labels
          r := { r with cachedVolumeLabels := (r.cachedVolumeLabels.insert volCacheID
            (k.GetPersistentVolumeLabels pv.PersistentVolumeSource ∅)) }
          env := (e.step (Event.getPersistentVolumeClaim nspace volumeClaim) w1).step
            (Event.getPersistentVolume pvc.VolumeName) w2 }) := by
  rcases Option.eq_none_or_eq_some r.k8sAPIClient with hc | ⟨client, hc⟩
  · exact Or.inl ⟨hc, setter_no_client k r _ _ _ _ _ hc⟩
  right
  rcases Option.eq_none_or_eq_some (r.cachedVolumeLabels.lookup volCacheID) with
    hl | ⟨cached, hl⟩
  swap
  · exact Or.inl ⟨client, cached, hc, hl, setter_hit k r _ _ _ _ _ _ _ hc hl⟩
  right
  obtain ⟨res, w1, hpvc⟩ : ∃ res w1,
      client.GetPersistentVolumeClaim e.world nspace volumeClaim = (res, w1) := ⟨_, _, rfl⟩
  cases res with
  | error err =>
    exact Or.inl ⟨client, err, w1, hc, hl, hpvc,
      setter_claim_error k r _ _ _ _ _ _ _ _ hc hl hpvc⟩
  | ok pvc =>
    right
    by_cases hname : pvc.VolumeName = ""
    · exact Or.inl ⟨client, pvc, w1, hc, hl, hpvc, hname,
        setter_no_volume_name k r _ _ _ _ _ _ _ _ hc hl hpvc hname⟩
    · right
      obtain ⟨res2, w2, hpv⟩ : ∃ res2 w2,
          client.GetPersistentVolume w1 pvc.VolumeName = (res2, w2) := ⟨_, _, rfl⟩
      cases res2 with
      | error err =>
        exact Or.inl ⟨client, pvc, w1, err, w2, hc, hl, hpvc, hname, hpv,
          setter_volume_error k r _ _ _ _ _ _ _ _ _ _ hc hl hpvc hname hpv⟩
      | ok pv =>
        exact Or.inr ⟨client, pvc, w1, pv, w2, hc, hl, hpvc, hname, hpv,
          setter_resolved k r _ _ _ _ _ _ _ _ _ _ hc hl hpvc hname hpv⟩

/-! ## The setter and the cache -/

/-- C2: a call of the setter with a volume cache key that is populated in
`cachedVolumeLabels`, be it with the empty label set, returns no error and
leaves the surroundings as they were: no call of the Kubernetes API is made
(the world and the trace are unchanged), whatever the claim name and
the namespace. -/
theorem cache_hit_makes_no_api_call {X : External} (k : Deps X) (r : runnable X)
    (volCacheID volumeClaim nspace : String) (labels : Labels) (e : Env X)
    (cached : Labels)
    (hhit : r.cachedVolumeLabels.lookup volCacheID = some cached) :
    (detailedPVCLabelsSetter k r volCacheID volumeClaim nspace labels e).err = none ∧
    (detailedPVCLabelsSetter k r volCacheID volumeClaim nspace labels e).env = e ∧
    List.countP Event.isAPICall
        (detailedPVCLabelsSetter k r volCacheID volumeClaim nspace labels e).env.trace =
      List.countP Event.isAPICall e.trace := by
  rcases Option.eq_none_or_eq_some r.k8sAPIClient with hc | ⟨client, hc⟩
  · rw [setter_no_client k r _ _ _ _ _ hc]
    exact ⟨rfl, rfl, rfl⟩
  · rw [setter_hit k r _ _ _ _ _ client cached hc hhit]
    exact ⟨rfl, rfl, rfl⟩

/-- C2 at a key populated with the empty label set, asked with a claim the API
server does not know. -/
theorem cache_hit_makes_no_api_call_witness :
    demoCached.cachedVolumeLabels.lookup "pod-1/data" = some ∅ ∧
    (detailedPVCLabelsSetter demoDeps demoCached "pod-1/data" "gone" "ns2" ∅ demoEnv).err
      = none ∧
    (detailedPVCLabelsSetter demoDeps demoCached "pod-1/data" "gone" "ns2" ∅ demoEnv).env
      = demoEnv ∧
    List.countP Event.isAPICall
      (detailedPVCLabelsSetter demoDeps demoCached "pod-1/data" "gone" "ns2" ∅ demoEnv).env.trace
      = List.countP Event.isAPICall demoEnv.trace :=
  ⟨rfl, cache_hit_makes_no_api_call demoDeps demoCached "pod-1/data" "gone" "ns2" ∅
    demoEnv ∅ rfl⟩

/-- C3: with an API client, on a cache miss, when the claim is found with a
non-empty volume name and the volume of that name is found, the call returns no
error, the cache then holds for `volCacheID` exactly the labels that
`GetPersistentVolumeLabels` derives from the volume source starting from the
empty map, and the output label map holds every one of those labels. -/
theorem resolved_miss_caches_and_emits {X : External} (k : Deps X) (r : runnable X)
    (volCacheID volumeClaim nspace : String) (labels : Labels) (e : Env X)
    (client : K8sClient X) (pvc : PersistentVolumeClaim) (w1 w2 : X.World)
    (pv : PersistentVolume X)
    (hc : r.k8sAPIClient = some client)
    (hmiss : r.cachedVolumeLabels.lookup volCacheID = none)
    (hpvc : client.GetPersistentVolumeClaim e.world nspace volumeClaim = (Except.ok pvc, w1))
    (hname : pvc.VolumeName ≠ "")
    (hpv : client.GetPersistentVolume w1 pvc.VolumeName = (Except.ok pv, w2)) :
    (detailedPVCLabelsSetter k r volCacheID volumeClaim nspace labels e).r.cachedVolumeLabels.lookup
        volCacheID = some (k.GetPersistentVolumeLabels pv.PersistentVolumeSource ∅) ∧
    (detailedPVCLabelsSetter k r volCacheID volumeClaim nspace labels e).err = none ∧
    ∀ key v, (k.GetPersistentVolumeLabels pv.PersistentVolumeSource ∅).lookup key = some v →
      (detailedPVCLabelsSetter k r volCacheID volumeClaim nspace labels e).labels.lookup key
        = some v := by
  rw [setter_resolved k r _ _ _ _ _ client pvc w1 w2 pv hc hmiss hpvc hname hpv]
  refine ⟨AList.lookup_insert _, rfl, ?_⟩
  intro key v hv
  show (rangeAssign _ labels).lookup key = some v
  rw [lookup_rangeAssign, hv]

/-- C3 on the claim `pvc-a` of namespace `ns1`, bound to `vol-1` of zone
`us-east-1a`: the cache entry is `{zone: us-east-1a}` and the output carries
`zone=us-east-1a`. -/
theorem resolved_miss_caches_and_emits_witness :
    (detailedPVCLabelsSetter demoDeps (demoRunnable (true, true) [] (some demoClient))
        "pod-1/data" "pvc-a" "ns1" ∅ demoEnv).r.cachedVolumeLabels.lookup "pod-1/data"
      = some zoneLabels ∧
    (detailedPVCLabelsSetter demoDeps (demoRunnable (true, true) [] (some demoClient))
        "pod-1/data" "pvc-a" "ns1" ∅ demoEnv).err = none ∧
    (detailedPVCLabelsSetter demoDeps (demoRunnable (true, true) [] (some demoClient))
        "pod-1/data" "pvc-a" "ns1" ∅ demoEnv).labels.lookup "zone" = some "us-east-1a" :=
  have h := resolved_miss_caches_and_emits demoDeps
    (demoRunnable (true, true) [] (some demoClient)) "pod-1/data" "pvc-a" "ns1" ∅ demoEnv
    demoClient { Name := "pvc-a", VolumeName := "vol-1" } 1 2
    { PersistentVolumeSource := ("us-east-1a" : String) } rfl rfl rfl (by decide) rfl
  ⟨h.1, h.2.1, h.2.2 "zone" "us-east-1a" rfl⟩

/-- C4: after a call that returns no error, with an API client, the cache holds
a label set for `volCacheID`, and the output label map is the map handed in
overlaid with that set: a key of the set has the value of the set, and every
other key is as it was before, present with its old value or absent. -/
theorem success_overlays_cached_labels {X : External} (k : Deps X) (r : runnable X)
    (volCacheID volumeClaim nspace : String) (labels : Labels) (e : Env X)
    (client : K8sClient X)
    (hc : r.k8sAPIClient = some client)
    (hok : (detailedPVCLabelsSetter k r volCacheID volumeClaim nspace labels e).err = none) :
    ∃ cached,
      (detailedPVCLabelsSetter k r volCacheID volumeClaim nspace labels e).r.cachedVolumeLabels.lookup
        volCacheID = some cached ∧
      (∀ key v, cached.lookup key = some v →
        (detailedPVCLabelsSetter k r volCacheID volumeClaim nspace labels e).labels.lookup key
          = some v) ∧
      (∀ key, cached.lookup key = none →
        (detailedPVCLabelsSetter k r volCacheID volumeClaim nspace labels e).labels.lookup key
          = labels.lookup key) := by
  rcases setter_cases k r volCacheID volumeClaim nspace labels e with
    ⟨hn, _⟩ | ⟨_, cached, _, hhit, h⟩ | ⟨_, _, _, _, _, _, h⟩ | ⟨_, _, _, _, _, _, _, h⟩ |
    ⟨_, _, _, _, _, _, _, _, _, _, h⟩ | ⟨_, _, _, pv, _, _, _, _, _, _, h⟩
  · rw [hc] at hn
    cases hn
  · rw [h]
    refine ⟨cached, hhit, ?_, ?_⟩
    · intro key v hv
      show (rangeAssign _ labels).lookup key = some v
      rw [lookup_rangeAssign, hv]
    · intro key hv
      show (rangeAssign _ labels).lookup key = labels.lookup key
      rw [lookup_rangeAssign, hv]
  · rw [h] at hok
    cases hok
  · rw [h] at hok
    cases hok
  · rw [h] at hok
    cases hok
  · rw [h]
    refine ⟨k.GetPersistentVolumeLabels pv.PersistentVolumeSource ∅,
      AList.lookup_insert _, ?_, ?_⟩
    · intro key v hv
      show (rangeAssign _ labels).lookup key = some v
      rw [lookup_rangeAssign, hv]
    · intro key hv
      show (rangeAssign _ labels).lookup key = labels.lookup key
      rw [lookup_rangeAssign, hv]

/-- C4 on a label map that already has a `zone`: the resolved zone overwrites
it, and `pod` stays. -/
theorem success_overlays_cached_labels_witness :
    ∃ cached,
      (detailedPVCLabelsSetter demoDeps (demoRunnable (true, true) [] (some demoClient))
        "pod-1/data" "pvc-a" "ns1" staleLabels demoEnv).r.cachedVolumeLabels.lookup
        "pod-1/data" = some cached ∧
      (∀ key v, cached.lookup key = some v →
        (detailedPVCLabelsSetter demoDeps (demoRunnable (true, true) [] (some demoClient))
          "pod-1/data" "pvc-a" "ns1" staleLabels demoEnv).labels.lookup key = some v) ∧
      (∀ key, cached.lookup key = none →
        (detailedPVCLabelsSetter demoDeps (demoRunnable (true, true) [] (some demoClient))
          "pod-1/data" "pvc-a" "ns1" staleLabels demoEnv).labels.lookup key
          = staleLabels.lookup key) :=
  success_overlays_cached_labels demoDeps (demoRunnable (true, true) [] (some demoClient))
    "pod-1/data" "pvc-a" "ns1" staleLabels demoEnv demoClient rfl rfl

/-- C5: a call of the setter returns an error exactly when an API client is
configured, `volCacheID` is a cache miss, and the claim lookup fails, or the
claim found has an empty volume name, or the lookup of the volume of that name
fails.  An empty volume name gives the error of `fmt.Errorf`.  The events the
call adds to the trace contain a volume lookup only when the claim lookup
succeeded with a non-empty volume name, and then it is the lookup of that name,
right after the claim lookup. -/
theorem setter_error_iff {X : External} (k : Deps X) (r : runnable X)
    (volCacheID volumeClaim nspace : String) (labels : Labels) (e : Env X) :
    ((detailedPVCLabelsSetter k r volCacheID volumeClaim nspace labels e).err ≠ none ↔
      ∃ client, r.k8sAPIClient = some client ∧
        r.cachedVolumeLabels.lookup volCacheID = none ∧
        ((∃ err w1, client.GetPersistentVolumeClaim e.world nspace volumeClaim
            = (Except.error err, w1)) ∨
         (∃ pvc w1, client.GetPersistentVolumeClaim e.world nspace volumeClaim
            = (Except.ok pvc, w1) ∧ pvc.VolumeName = "") ∨
         (∃ pvc w1 err w2, client.GetPersistentVolumeClaim e.world nspace volumeClaim
            = (Except.ok pvc, w1) ∧
            client.GetPersistentVolume w1 pvc.VolumeName = (Except.error err, w2)))) ∧
    (∀ client pvc w1, r.k8sAPIClient = some client →
      r.cachedVolumeLabels.lookup volCacheID = none →
      client.GetPersistentVolumeClaim e.world nspace volumeClaim = (Except.ok pvc, w1) →
      pvc.VolumeName = "" →
      (detailedPVCLabelsSetter k r volCacheID volumeClaim nspace labels e).err
        = some (noVolumeNameError pvc)) ∧
    (∃ evs, (detailedPVCLabelsSetter k r volCacheID volumeClaim nspace labels e).env.trace
        = e.trace ++ evs ∧
      ∀ name, Event.getPersistentVolume name ∈ evs →
        ∃ client pvc w1, r.k8sAPIClient = some client ∧
          client.GetPersistentVolumeClaim e.world nspace volumeClaim = (Except.ok pvc, w1) ∧
          pvc.VolumeName = name ∧ name ≠ "" ∧
          evs = [Event.getPersistentVolumeClaim nspace volumeClaim,
            Event.getPersistentVolume name]) := by
  refine ⟨?_, ?_, ?_⟩
  · rcases setter_cases k r volCacheID volumeClaim nspace labels e with
      ⟨hn, h⟩ | ⟨client, cached, hc, hhit, h⟩ | ⟨client, err, w1, hc, hmiss, hpvc, h⟩ |
      ⟨client, pvc, w1, hc, hmiss, hpvc, hname, h⟩ |
      ⟨client, pvc, w1, err, w2, hc, hmiss, hpvc, hname, hpv, h⟩ |
      ⟨client, pvc, w1, pv, w2, hc, hmiss, hpvc, hname, hpv, h⟩
    · rw [h]
      constructor
      · intro hne
        exact absurd rfl hne
      · rintro ⟨client, hc, _⟩
        rw [hn] at hc
        cases hc
    · rw [h]
      constructor
      · intro hne
        exact absurd rfl hne
      · rintro ⟨_, _, hmiss, _⟩
        rw [hhit] at hmiss
        cases hmiss
    · rw [h]
      exact ⟨fun _ => ⟨client, hc, hmiss, Or.inl ⟨err, w1, hpvc⟩⟩, fun _ => by simp⟩
    · rw [h]
      exact ⟨fun _ => ⟨client, hc, hmiss, Or.inr (Or.inl ⟨pvc, w1, hpvc, hname⟩)⟩,
        fun _ => by simp⟩
    · rw [h]
      exact ⟨fun _ => ⟨client, hc, hmiss, Or.inr (Or.inr ⟨pvc, w1, err, w2, hpvc, hpv⟩)⟩,
        fun _ => by simp⟩
    · rw [h]
      constructor
      · intro hne
        exact absurd rfl hne
      · rintro ⟨client2, hc2, _, hfail⟩
        rw [hc] at hc2
        cases hc2
        rcases hfail with ⟨err, w, hf⟩ | ⟨pvc2, w, hf, hempty⟩ | ⟨pvc2, w, err, w3, hf, hf2⟩
        · rw [hpvc] at hf
          cases hf
        · rw [hpvc] at hf
          cases hf
          exact absurd hempty hname
        · rw [hpvc] at hf
          cases hf
          rw [hpv] at hf2
          cases hf2
  · intro client pvc w1 hc hmiss hpvc hname
    rw [setter_no_volume_name k r _ _ _ _ _ client pvc w1 hc hmiss hpvc hname]
  · rcases setter_cases k r volCacheID volumeClaim nspace labels e with
      ⟨hn, h⟩ | ⟨client, cached, hc, hhit, h⟩ | ⟨client, err, w1, hc, hmiss, hpvc, h⟩ |
      ⟨client, pvc, w1, hc, hmiss, hpvc, hname, h⟩ |
      ⟨client, pvc, w1, err, w2, hc, hmiss, hpvc, hname, hpv, h⟩ |
      ⟨client, pvc, w1, pv, w2, hc, hmiss, hpvc, hname, hpv, h⟩
    · exact ⟨[], by rw [h]; simp, fun name hmem => by simp at hmem⟩
    · exact ⟨[], by rw [h]; simp, fun name hmem => by simp at hmem⟩
    · exact ⟨[Event.getPersistentVolumeClaim nspace volumeClaim], by rw [h]; rfl,
        fun name hmem => by simp at hmem⟩
    · exact ⟨[Event.getPersistentVolumeClaim nspace volumeClaim], by rw [h]; rfl,
        fun name hmem => by simp at hmem⟩
    · refine ⟨[Event.getPersistentVolumeClaim nspace volumeClaim,
        Event.getPersistentVolume pvc.VolumeName], by rw [h]; simp [Env.step], ?_⟩
      intro name hmem
      simp at hmem
      subst hmem
      exact ⟨client, pvc, w1, hc, hpvc, rfl, hname, rfl⟩
    · refine ⟨[Event.getPersistentVolumeClaim nspace volumeClaim,
        Event.getPersistentVolume pvc.VolumeName], by rw [h]; simp [Env.step], ?_⟩
      intro name hmem
      simp at hmem
      subst hmem
      exact ⟨client, pvc, w1, hc, hpvc, rfl, hname, rfl⟩

/-- C5 on the claim `pvc-unbound`, which is found and has no volume name: the
call returns the error of `fmt.Errorf`. -/
theorem setter_error_iff_witness :
    (detailedPVCLabelsSetter demoDeps (demoRunnable (true, true) [] (some demoClient))
      "pod-2/scratch" "pvc-unbound" "ns1" ∅ demoEnv).err
      = some "PersistentVolumeClaim pvc-unbound does not have a volume name" :=
  (setter_error_iff demoDeps (demoRunnable (true, true) [] (some demoClient))
    "pod-2/scratch" "pvc-unbound" "ns1" ∅ demoEnv).2.1 demoClient
    { Name := "pvc-unbound", VolumeName := "" } 1 rfl rfl rfl rfl

/-- C6: a call of the setter that returns an error leaves the cache and the
output label map as they were; `volCacheID` is still unpopulated. -/
theorem setter_error_changes_nothing {X : External} (k : Deps X) (r : runnable X)
    (volCacheID volumeClaim nspace : String) (labels : Labels) (e : Env X)
    (herr : (detailedPVCLabelsSetter k r volCacheID volumeClaim nspace labels e).err ≠ none) :
    (detailedPVCLabelsSetter k r volCacheID volumeClaim nspace labels e).r.cachedVolumeLabels
      = r.cachedVolumeLabels ∧
    (detailedPVCLabelsSetter k r volCacheID volumeClaim nspace labels e).r.cachedVolumeLabels.lookup
      volCacheID = none ∧
    (detailedPVCLabelsSetter k r volCacheID volumeClaim nspace labels e).labels = labels := by
  rcases setter_cases k r volCacheID volumeClaim nspace labels e with
    ⟨_, h⟩ | ⟨_, _, _, _, h⟩ | ⟨_, _, _, _, hmiss, _, h⟩ | ⟨_, _, _, _, hmiss, _, _, h⟩ |
    ⟨_, _, _, _, _, _, hmiss, _, _, _, h⟩ | ⟨_, _, _, _, _, _, _, _, _, _, h⟩
  · rw [h] at herr
    exact absurd rfl herr
  · rw [h] at herr
    exact absurd rfl herr
  · rw [h]
    exact ⟨rfl, hmiss, rfl⟩
  · rw [h]
    exact ⟨rfl, hmiss, rfl⟩
  · rw [h]
    exact ⟨rfl, hmiss, rfl⟩
  · rw [h] at herr
    exact absurd rfl herr

/-- C6 on a claim the API server does not know. -/
theorem setter_error_changes_nothing_witness :
    (detailedPVCLabelsSetter demoDeps (demoRunnable (true, true) [] (some demoClient))
      "pod-3/data" "gone" "ns1" staleLabels demoEnv).r.cachedVolumeLabels
      = (demoRunnable (true, true) [] (some demoClient)).cachedVolumeLabels ∧
    (detailedPVCLabelsSetter demoDeps (demoRunnable (true, true) [] (some demoClient))
      "pod-3/data" "gone" "ns1" staleLabels demoEnv).r.cachedVolumeLabels.lookup
      "pod-3/data" = none ∧
    (detailedPVCLabelsSetter demoDeps (demoRunnable (true, true) [] (some demoClient))
      "pod-3/data" "gone" "ns1" staleLabels demoEnv).labels = staleLabels :=
  setter_error_changes_nothing demoDeps (demoRunnable (true, true) [] (some demoClient))
    "pod-3/data" "gone" "ns1" staleLabels demoEnv (by simp [detailedPVCLabelsSetter,
      demoRunnable, newRunnable, demoClient, demoEnv])

/-- C8: without an API client (`k8sAPIClient` is nil) a call of the setter
returns no error, makes no API call (the world and the trace are unchanged),
and leaves the output label map and the runnable, with its cache, as they were,
also when `volCacheID` is populated in the cache. -/
theorem setter_without_client_is_noop {X : External} (k : Deps X) (r : runnable X)
    (volCacheID volumeClaim nspace : String) (labels : Labels) (e : Env X)
    (hc : r.k8sAPIClient = none) :
    (detailedPVCLabelsSetter k r volCacheID volumeClaim nspace labels e).err = none ∧
    (detailedPVCLabelsSetter k r volCacheID volumeClaim nspace labels e).env = e ∧
    (detailedPVCLabelsSetter k r volCacheID volumeClaim nspace labels e).labels = labels ∧
    (detailedPVCLabelsSetter k r volCacheID volumeClaim nspace labels e).r.cachedVolumeLabels
      = r.cachedVolumeLabels := by
  rw [setter_no_client k r _ _ _ _ _ hc]
  exact ⟨rfl, rfl, rfl, rfl⟩

/-- C8 at a populated key: the cached zone is not written to the output. -/
theorem setter_without_client_is_noop_witness :
    demoNoClient.cachedVolumeLabels.lookup "pod-1/data" = some zoneLabels ∧
    (detailedPVCLabelsSetter demoDeps demoNoClient "pod-1/data" "pvc-a" "ns1" ∅ demoEnv).err
      = none ∧
    (detailedPVCLabelsSetter demoDeps demoNoClient "pod-1/data" "pvc-a" "ns1" ∅ demoEnv).env
      = demoEnv ∧
    (detailedPVCLabelsSetter demoDeps demoNoClient "pod-1/data" "pvc-a" "ns1" ∅ demoEnv).labels
      = ∅ ∧
    (detailedPVCLabelsSetter demoDeps demoNoClient "pod-1/data" "pvc-a" "ns1"
      ∅ demoEnv).r.cachedVolumeLabels = demoNoClient.cachedVolumeLabels :=
  ⟨rfl, setter_without_client_is_noop demoDeps demoNoClient "pod-1/data" "pvc-a" "ns1" ∅
    demoEnv rfl⟩

/-- A call of the setter keeps every populated cache entry. -/
theorem setter_keeps_entries {X : External} (k : Deps X) (r : runnable X)
    (volCacheID volumeClaim nspace : String) (labels : Labels) (e : Env X)
    (key : String) (v : Labels) (hv : r.cachedVolumeLabels.lookup key = some v) :
    (detailedPVCLabelsSetter k r volCacheID volumeClaim nspace labels e).r.cachedVolumeLabels.lookup
      key = some v := by
  rcases setter_cases k r volCacheID volumeClaim nspace labels e with
    ⟨_, h⟩ | ⟨_, _, _, _, h⟩ | ⟨_, _, _, _, _, _, h⟩ | ⟨_, _, _, _, _, _, _, h⟩ |
    ⟨_, _, _, _, _, _, _, _, _, _, h⟩ | ⟨_, _, _, _, _, _, hmiss, _, _, _, h⟩
  · rw [h]; exact hv
  · rw [h]; exact hv
  · rw [h]; exact hv
  · rw [h]; exact hv
  · rw [h]; exact hv
  · rw [h]
    have hne : key ≠ volCacheID := by
      intro heq
      rw [heq, hmiss] at hv
      cases hv
    show (r.cachedVolumeLabels.insert volCacheID _).lookup key = some v
    rw [AList.lookup_insert_ne hne]
    exact hv

/-- A call of the setter populates no key other than `volCacheID`. -/
theorem setter_populates_only_volCacheID {X : External} (k : Deps X) (r : runnable X)
    (volCacheID volumeClaim nspace : String) (labels : Labels) (e : Env X)
    (key : String) (hv : r.cachedVolumeLabels.lookup key = none) (hne : key ≠ volCacheID) :
    (detailedPVCLabelsSetter k r volCacheID volumeClaim nspace labels e).r.cachedVolumeLabels.lookup
      key = none := by
  rcases setter_cases k r volCacheID volumeClaim nspace labels e with
    ⟨_, h⟩ | ⟨_, _, _, _, h⟩ | ⟨_, _, _, _, _, _, h⟩ | ⟨_, _, _, _, _, _, _, h⟩ |
    ⟨_, _, _, _, _, _, _, _, _, _, h⟩ | ⟨_, _, _, _, _, _, _, _, _, _, h⟩
  · rw [h]; exact hv
  · rw [h]; exact hv
  · rw [h]; exact hv
  · rw [h]; exact hv
  · rw [h]; exact hv
  · rw [h]
    show (r.cachedVolumeLabels.insert volCacheID _).lookup key = none
    rw [AList.lookup_insert_ne hne]
    exact hv

/-- A sequence of calls keeps every populated cache entry. -/
theorem runCalls_keeps_entries {X : External} (k : Deps X) (cs : List SetterCall)
    (r : runnable X) (e : Env X) (key : String) (v : Labels)
    (hv : r.cachedVolumeLabels.lookup key = some v) :
    (runCalls k cs r e).1.cachedVolumeLabels.lookup key = some v := by
  induction cs generalizing r e with
  | nil => exact hv
  | cons c cs ih =>
    exact ih _ _ (setter_keeps_entries k r c.volCacheID c.volumeClaim c.nspace c.labels e
      key v hv)

/-- Running a sequence of calls is running its first part, then the rest. -/
theorem runCalls_append {X : External} (k : Deps X) (cs1 cs2 : List SetterCall)
    (r : runnable X) (e : Env X) :
    runCalls k (cs1 ++ cs2) r e =
      runCalls k cs2 (runCalls k cs1 r e).1 (runCalls k cs1 r e).2 := by
  induction cs1 generalizing r e with
  | nil => rfl
  | cons c cs ih => exact ih _ _

/-- C9: the volume label cache only grows and populated entries never change.
A call of the setter, whatever its path, keeps every populated key with the
same label set, and leaves unpopulated every key other than the `volCacheID` it
was called with.  The cache built by `newRunnable` is empty, and over a
sequence of calls started from it every entry populated after a first part of
the sequence is populated, with the same label set, after the whole sequence. -/
theorem cache_only_grows {X : External} (k : Deps X) :
    (∀ (r : runnable X) (volCacheID volumeClaim nspace : String) (labels : Labels)
        (e : Env X) (key : String) (v : Labels),
      r.cachedVolumeLabels.lookup key = some v →
      (detailedPVCLabelsSetter k r volCacheID volumeClaim nspace labels
        e).r.cachedVolumeLabels.lookup key = some v) ∧
    (∀ (r : runnable X) (volCacheID volumeClaim nspace : String) (labels : Labels)
        (e : Env X) (key : String),
      r.cachedVolumeLabels.lookup key = none → key ≠ volCacheID →
      (detailedPVCLabelsSetter k r volCacheID volumeClaim nspace labels
        e).r.cachedVolumeLabels.lookup key = none) ∧
    (∀ (consumer : Consumer X) (restClient : X.RestClient) (rOptions : receiverOptions X)
        (key : String),
      (newRunnable consumer restClient rOptions).cachedVolumeLabels.lookup key = none) ∧
    (∀ (consumer : Consumer X) (restClient : X.RestClient) (rOptions : receiverOptions X)
        (e : Env X) (cs1 cs2 : List SetterCall) (key : String) (v : Labels),
      (runCalls k cs1 (newRunnable consumer restClient rOptions)
        e).1.cachedVolumeLabels.lookup key = some v →
      (runCalls k (cs1 ++ cs2) (newRunnable consumer restClient rOptions)
        e).1.cachedVolumeLabels.lookup key = some v) := by
  refine ⟨?_, ?_, ?_, ?_⟩
  · intro r volCacheID volumeClaim nspace labels e key v hv
    exact setter_keeps_entries k r volCacheID volumeClaim nspace labels e key v hv
  · intro r volCacheID volumeClaim nspace labels e key hv hne
    exact setter_populates_only_volCacheID k r volCacheID volumeClaim nspace labels e key
      hv hne
  · intro consumer restClient rOptions key
    exact AList.lookup_empty key
  · intro consumer restClient rOptions e cs1 cs2 key v hv
    rw [runCalls_append]
    exact runCalls_keeps_entries k cs2 _ _ key v hv

/-- C9 on the small instance: the entry for `pod-1/data` resolved by a first
call is still `{zone: us-east-1a}` after a failing call for another key and a
second call for the same key. -/
theorem cache_only_grows_witness :
    (runCalls demoDeps
      ([{ volCacheID := "pod-1/data", volumeClaim := "pvc-a", nspace := "ns1", labels := ∅ }] ++
       [{ volCacheID := "pod-3/data", volumeClaim := "gone", nspace := "ns1", labels := ∅ },
        { volCacheID := "pod-1/data", volumeClaim := "gone", nspace := "ns1", labels := ∅ }])
      (newRunnable demoConsumer (true, true)
        { extraMetadataLabels := [], metricGroupsToCollect := ∅
          k8sAPIClient := some demoClient })
      demoEnv).1.cachedVolumeLabels.lookup "pod-1/data" = some zoneLabels :=
  (cache_only_grows demoDeps).2.2.2 demoConsumer (true, true)
    { extraMetadataLabels := [], metricGroupsToCollect := ∅, k8sAPIClient := some demoClient }
    demoEnv
    [{ volCacheID := "pod-1/data", volumeClaim := "pvc-a", nspace := "ns1", labels := ∅ }]
    [{ volCacheID := "pod-3/data", volumeClaim := "gone", nspace := "ns1", labels := ∅ },
     { volCacheID := "pod-1/data", volumeClaim := "gone", nspace := "ns1", labels := ∅ }]
    "pod-1/data" zoneLabels rfl

/-! ## The collection cycle -/

/-- A call of the setter adds only API calls to the trace. -/
theorem setter_countP {X : External} (k : Deps X) (p : Event X → Bool)
    (hpvc : ∀ nspace name, p (Event.getPersistentVolumeClaim nspace name) = false)
    (hpv : ∀ name, p (Event.getPersistentVolume name) = false)
    (r : runnable X) (volCacheID volumeClaim nspace : String) (labels : Labels) (e : Env X) :
    List.countP p (detailedPVCLabelsSetter k r volCacheID volumeClaim nspace labels e).env.trace
      = List.countP p e.trace := by
  rcases setter_cases k r volCacheID volumeClaim nspace labels e with
    ⟨_, h⟩ | ⟨_, _, _, _, h⟩ | ⟨_, _, _, _, _, _, h⟩ | ⟨_, _, _, _, _, _, _, h⟩ |
    ⟨_, _, _, _, _, _, _, _, _, _, h⟩ | ⟨_, _, _, _, _, _, _, _, _, _, h⟩ <;>
  simp [h, Env.step, List.countP_append, hpvc, hpv]

/-- A translation adds only log entries and API calls to the trace. -/
theorem runTranslation_countP {X : External} {α : Type} (k : Deps X) (p : Event X → Bool)
    (hlog : ∀ msg err, p (Event.logError msg err) = false)
    (hpvc : ∀ nspace name, p (Event.getPersistentVolumeClaim nspace name) = false)
    (hpv : ∀ name, p (Event.getPersistentVolume name) = false)
    (t : Translation α) (r : runnable X) (e : Env X) :
    List.countP p (runTranslation k t r e).env.trace = List.countP p e.trace := by
  induction t generalizing r e with
  | done a => rfl
  | logError msg err next ih =>
    show List.countP p (runTranslation k next r _).env.trace = _
    rw [ih]
    simp [Env.record, List.countP_append, hlog]
  | setDetailedPVCLabels volCacheID volumeClaim nspace labels next ih =>
    show List.countP p (runTranslation k (next _ _) _ _).env.trace = _
    rw [ih]
    exact setter_countP k p hpvc hpv r volCacheID volumeClaim nspace labels e

/-- A call of the setter extends the trace. -/
theorem setter_trace_extends {X : External} (k : Deps X)
    (r : runnable X) (volCacheID volumeClaim nspace : String) (labels : Labels) (e : Env X) :
    ∃ evs, (detailedPVCLabelsSetter k r volCacheID volumeClaim nspace labels e).env.trace
      = e.trace ++ evs := by
  rcases setter_cases k r volCacheID volumeClaim nspace labels e with
    ⟨_, h⟩ | ⟨_, _, _, _, h⟩ | ⟨_, _, _, _, _, _, h⟩ | ⟨_, _, _, _, _, _, _, h⟩ |
    ⟨_, _, _, _, _, _, _, _, _, _, h⟩ | ⟨_, _, _, _, _, _, _, _, _, _, h⟩
  · exact ⟨[], by rw [h]; simp⟩
  · exact ⟨[], by rw [h]; simp⟩
  · exact ⟨_, by rw [h]; rfl⟩
  · exact ⟨_, by rw [h]; rfl⟩
  · rw [h]
    exact ⟨_, List.append_assoc _ _ _⟩
  · rw [h]
    exact ⟨_, List.append_assoc _ _ _⟩

/-- A translation extends the trace. -/
theorem runTranslation_trace_extends {X : External} {α : Type} (k : Deps X)
    (t : Translation α) (r : runnable X) (e : Env X) :
    ∃ evs, (runTranslation k t r e).env.trace = e.trace ++ evs := by
  induction t generalizing r e with
  | done a => exact ⟨[], by simp [runTranslation]⟩
  | logError msg err next ih =>
    obtain ⟨evs, h⟩ := ih r (e.record (Event.logError msg err))
    exact ⟨Event.logError msg err :: evs, by
      show (runTranslation k next r _).env.trace = _
      rw [h]; simp [Env.record]⟩
  | setDetailedPVCLabels volCacheID volumeClaim nspace labels next ih =>
    obtain ⟨evs1, h1⟩ := setter_trace_extends k r volCacheID volumeClaim nspace labels e
    obtain ⟨evs2, h2⟩ := ih
      (detailedPVCLabelsSetter k r volCacheID volumeClaim nspace labels e).err
      (detailedPVCLabelsSetter k r volCacheID volumeClaim nspace labels e).labels
      (detailedPVCLabelsSetter k r volCacheID volumeClaim nspace labels e).r
      (detailedPVCLabelsSetter k r volCacheID volumeClaim nspace labels e).env
    exact ⟨evs1 ++ evs2, by
      show (runTranslation k (next _ _) _ _).env.trace = _
      rw [h2, h1, List.append_assoc]⟩

/-- The tail of `Run` returns nil. -/
theorem translateAndConsume_outcome {X : External} (k : Deps X) (r : runnable X)
    (summary : X.Summary) (podsMetadata : Option X.PodList) (e : Env X) :
    (translateAndConsume k r summary podsMetadata e).outcome = Outcome.returned none := by
  unfold translateAndConsume
  dsimp only
  split <;> rfl

/-- The tail of `Run` calls the consumer once. -/
theorem translateAndConsume_consumes_once {X : External} (k : Deps X) (r : runnable X)
    (summary : X.Summary) (podsMetadata : Option X.PodList) (e : Env X) :
    List.countP Event.isConsumeMetrics (translateAndConsume k r summary podsMetadata e).env.trace
      = List.countP Event.isConsumeMetrics e.trace + 1 := by
  unfold translateAndConsume
  dsimp only
  split <;>
  · simp only [Env.step, Env.record, List.countP_append]
    rw [runTranslation_countP k Event.isConsumeMetrics (fun _ _ => rfl) (fun _ _ => rfl)
      (fun _ => rfl)]
    simp [Env.record, List.countP_append, Event.isConsumeMetrics]

/-- The tail of `Run` does not fetch the pod metadata. -/
theorem translateAndConsume_fetches_no_pods {X : External} (k : Deps X) (r : runnable X)
    (summary : X.Summary) (podsMetadata : Option X.PodList) (e : Env X) :
    List.countP Event.isPods (translateAndConsume k r summary podsMetadata e).env.trace
      = List.countP Event.isPods e.trace := by
  unfold translateAndConsume
  dsimp only
  split <;>
  · simp only [Env.step, Env.record, List.countP_append]
    rw [runTranslation_countP k Event.isPods (fun _ _ => rfl) (fun _ _ => rfl)
      (fun _ => rfl)]
    simp [Env.record, List.countP_append, Event.isPods]

/-- A trace that goes on after an event still goes on after it when extended. -/
theorem extends_append {α : Type} {t pre : List α} {a : α}
    (h : ∃ post, t = pre ++ a :: post) (tail : List α) :
    ∃ post, t ++ tail = pre ++ a :: post := by
  obtain ⟨post, hp⟩ := h
  exact ⟨post ++ tail, by rw [hp]; simp⟩

/-- The tail of `Run` starts with the call of `kubelet.MetricsData`. -/
theorem translateAndConsume_translates {X : External} (k : Deps X) (r : runnable X)
    (summary : X.Summary) (podsMetadata : Option X.PodList) (e : Env X) :
    ∃ post, (translateAndConsume k r summary podsMetadata e).env.trace
      = e.trace ++ Event.metricsData podsMetadata :: post := by
  obtain ⟨evs, h⟩ := runTranslation_trace_extends k
    (k.MetricsData summary r.extraMetadataLabels podsMetadata r.metricGroupsToCollect)
    r (e.record (Event.metricsData podsMetadata))
  have h0 : ∃ post, (runTranslation k
      (k.MetricsData summary r.extraMetadataLabels podsMetadata r.metricGroupsToCollect)
      r (e.record (Event.metricsData podsMetadata))).env.trace
        = e.trace ++ Event.metricsData podsMetadata :: post :=
    ⟨evs, by rw [h]; simp [Env.record]⟩
  unfold translateAndConsume
  dsimp only
  split
  · dsimp only [Env.step, Env.record]
    exact extends_append (extends_append (extends_append (extends_append h0 _) _) _) _
  · dsimp only [Env.step, Env.record]
    exact extends_append (extends_append (extends_append h0 _) _) _

/-- The tail of `Run` when the consumer rejects the batch: the batch built from
what `kubelet.MetricsData` returned is handed over once, the rejection is
logged and reported with no points, and the runnable is the one the translation
left behind. -/
theorem translateAndConsume_rejected {X : External} (k : Deps X) (r : runnable X)
    (summary : X.Summary) (podsMetadata : Option X.PodList) (e : Env X)
    (err : Error) (w : X.World)
    (hcons : r.consumer.ConsumeMetrics
      (runTranslation k
        (k.MetricsData summary r.extraMetadataLabels podsMetadata r.metricGroupsToCollect)
        r (e.record (Event.metricsData podsMetadata))).env.world
      ((runTranslation k
        (k.MetricsData summary r.extraMetadataLabels podsMetadata r.metricGroupsToCollect)
        r (e.record (Event.metricsData podsMetadata))).result.foldl
          (fun acc md => acc ++ k.OCToMetrics md) []) = (some err, w)) :
    translateAndConsume k r summary podsMetadata e =
      { outcome := Outcome.returned none
        r := (runTranslation k
          (k.MetricsData summary r.extraMetadataLabels podsMetadata r.metricGroupsToCollect)
          r (e.record (Event.metricsData podsMetadata))).r
        env :=
          { world := w
            trace := (runTranslation k
              (k.MetricsData summary r.extraMetadataLabels podsMetadata
                r.metricGroupsToCollect)
              r (e.record (Event.metricsData podsMetadata))).env.trace ++
              [Event.startMetricsReceiveOp,
               Event.consumeMetrics ((runTranslation k
                (k.MetricsData summary r.extraMetadataLabels podsMetadata
                  r.metricGroupsToCollect)
                r (e.record (Event.metricsData podsMetadata))).result.foldl
                  (fun acc md => acc ++ k.OCToMetrics md) []),
               Event.logError "ConsumeMetricsData failed" err,
               Event.endMetricsReceiveOp 0 (some err)] } } := by
  unfold translateAndConsume
  simp only [Env.record, Env.step] at hcons ⊢
  rw [hcons]
  simp

/-- The tail of `Run` when the consumer accepts the batch: the batch built from
what `kubelet.MetricsData` returned is handed over once and its point count is
reported. -/
theorem translateAndConsume_accepted {X : External} (k : Deps X) (r : runnable X)
    (summary : X.Summary) (podsMetadata : Option X.PodList) (e : Env X) (w : X.World)
    (hcons : r.consumer.ConsumeMetrics
      (runTranslation k
        (k.MetricsData summary r.extraMetadataLabels podsMetadata r.metricGroupsToCollect)
        r (e.record (Event.metricsData podsMetadata))).env.world
      ((runTranslation k
        (k.MetricsData summary r.extraMetadataLabels podsMetadata r.metricGroupsToCollect)
        r (e.record (Event.metricsData podsMetadata))).result.foldl
          (fun acc md => acc ++ k.OCToMetrics md) []) = (none, w)) :
    translateAndConsume k r summary podsMetadata e =
      { outcome := Outcome.returned none
        r := (runTranslation k
          (k.MetricsData summary r.extraMetadataLabels podsMetadata r.metricGroupsToCollect)
          r (e.record (Event.metricsData podsMetadata))).r
        env :=
          { world := w
            trace := (runTranslation k
              (k.MetricsData summary r.extraMetadataLabels podsMetadata
                r.metricGroupsToCollect)
              r (e.record (Event.metricsData podsMetadata))).env.trace ++
              [Event.startMetricsReceiveOp,
               Event.consumeMetrics ((runTranslation k
                (k.MetricsData summary r.extraMetadataLabels podsMetadata
                  r.metricGroupsToCollect)
                r (e.record (Event.metricsData podsMetadata))).result.foldl
                  (fun acc md => acc ++ k.OCToMetrics md) []),
               Event.endMetricsReceiveOp (k.DataPointCount ((runTranslation k
                (k.MetricsData summary r.extraMetadataLabels podsMetadata
                  r.metricGroupsToCollect)
                r (e.record (Event.metricsData podsMetadata))).result.foldl
                  (fun acc md => acc ++ k.OCToMetrics md) [])) none] } } := by
  unfold translateAndConsume
  simp only [Env.record, Env.step] at hcons ⊢
  rw [hcons]
  simp

/-- The tail of `Run` hands to the consumer the batch built from what
`kubelet.MetricsData` returned, right after the translation, and leaves the
runnable the translation left behind. -/
theorem translateAndConsume_consumes_translation {X : External} (k : Deps X)
    (r : runnable X) (summary : X.Summary) (podsMetadata : Option X.PodList) (e : Env X) :
    (∃ tail, (translateAndConsume k r summary podsMetadata e).env.trace =
      (runTranslation k
        (k.MetricsData summary r.extraMetadataLabels podsMetadata r.metricGroupsToCollect)
        r (e.record (Event.metricsData podsMetadata))).env.trace ++
        Event.startMetricsReceiveOp ::
        Event.consumeMetrics ((runTranslation k
          (k.MetricsData summary r.extraMetadataLabels podsMetadata r.metricGroupsToCollect)
          r (e.record (Event.metricsData podsMetadata))).result.foldl
            (fun acc md => acc ++ k.OCToMetrics md) []) :: tail) ∧
    (translateAndConsume k r summary podsMetadata e).r =
      (runTranslation k
        (k.MetricsData summary r.extraMetadataLabels podsMetadata r.metricGroupsToCollect)
        r (e.record (Event.metricsData podsMetadata))).r := by
  obtain ⟨res, w, hcons⟩ : ∃ res w, r.consumer.ConsumeMetrics
      (runTranslation k
        (k.MetricsData summary r.extraMetadataLabels podsMetadata r.metricGroupsToCollect)
        r (e.record (Event.metricsData podsMetadata))).env.world
      ((runTranslation k
        (k.MetricsData summary r.extraMetadataLabels podsMetadata r.metricGroupsToCollect)
        r (e.record (Event.metricsData podsMetadata))).result.foldl
          (fun acc md => acc ++ k.OCToMetrics md) []) = (res, w) := ⟨_, _, rfl⟩
  cases res with
  | some err =>
    rw [translateAndConsume_rejected k r summary podsMetadata e err w hcons]
    exact ⟨⟨_, rfl⟩, rfl⟩
  | none =>
    rw [translateAndConsume_accepted k r summary podsMetadata e w hcons]
    exact ⟨⟨_, rfl⟩, rfl⟩

/-- The cycle in which the stats fetch fails. -/
theorem Run_stats_error {X : External} (k : Deps X) (r : runnable X) (e : Env X)
    (err : Error) (w1 : X.World)
    (hstats : (k.NewStatsProvider r.restClient).StatsSummary e.world = (Except.error err, w1)) :
    Run k (Setup k r) e =
      { outcome := Outcome.returned none, r := Setup k r
        env := (e.step Event.statsSummary w1).record
          (Event.logError "call to /stats/summary endpoint failed" err) } := by
  simp [Run, Setup, hstats]

/-- The cycle in which the metadata fetch fails. -/
theorem Run_pods_error {X : External} (k : Deps X) (r : runnable X) (e : Env X)
    (summary : X.Summary) (w1 w2 : X.World) (err : Error)
    (hstats : (k.NewStatsProvider r.restClient).StatsSummary e.world = (Except.ok summary, w1))
    (hextra : r.extraMetadataLabels ≠ [])
    (hpods : (k.NewMetadataProvider r.restClient).Pods w1 = (Except.error err, w2)) :
    Run k (Setup k r) e =
      { outcome := Outcome.returned none, r := Setup k r
        env := ((e.step Event.statsSummary w1).step Event.pods w2).record
          (Event.logError "call to /pods endpoint failed" err) } := by
  have hlen : 0 < r.extraMetadataLabels.length := List.length_pos.mpr hextra
  simp [Run, Setup, hstats, hlen, hpods, Env.step]

/-- The cycle in which both fetches succeed. -/
theorem Run_pods_ok {X : External} (k : Deps X) (r : runnable X) (e : Env X)
    (summary : X.Summary) (w1 w2 : X.World) (podsMetadata : X.PodList)
    (hstats : (k.NewStatsProvider r.restClient).StatsSummary e.world = (Except.ok summary, w1))
    (hextra : r.extraMetadataLabels ≠ [])
    (hpods : (k.NewMetadataProvider r.restClient).Pods w1 = (Except.ok podsMetadata, w2)) :
    Run k (Setup k r) e =
      translateAndConsume k (Setup k r) summary (some podsMetadata)
        ((e.step Event.statsSummary w1).step Event.pods w2) := by
  have hlen : 0 < r.extraMetadataLabels.length := List.length_pos.mpr hextra
  simp [Run, Setup, hstats, hlen, hpods, Env.step]

/-- The cycle without extra metadata labels. -/
theorem Run_no_extra_labels {X : External} (k : Deps X) (r : runnable X) (e : Env X)
    (summary : X.Summary) (w1 : X.World)
    (hstats : (k.NewStatsProvider r.restClient).StatsSummary e.world = (Except.ok summary, w1))
    (hextra : r.extraMetadataLabels = []) :
    Run k (Setup k r) e =
      translateAndConsume k (Setup k r) summary none (e.step Event.statsSummary w1) := by
  simp [Run, Setup, hstats, hextra]

/-- C1: in a cycle (a call of `Run` after `Setup`) in which the stats fetch
returns an error, or extra metadata labels are configured and the metadata
fetch returns an error, `ConsumeMetrics` is not called, `kubelet.MetricsData`
is not called, no API call is made, one error is logged and the runnable is
left as it was; in every other cycle `ConsumeMetrics` is called exactly once. -/
theorem failed_fetch_consumes_nothing {X : External} (k : Deps X) (r : runnable X)
    (e : Env X) :
    (((∃ err w1, (k.NewStatsProvider r.restClient).StatsSummary e.world
          = (Except.error err, w1)) ∨
      (∃ summary w1 err w2, (k.NewStatsProvider r.restClient).StatsSummary e.world
          = (Except.ok summary, w1) ∧ r.extraMetadataLabels ≠ [] ∧
        (k.NewMetadataProvider r.restClient).Pods w1 = (Except.error err, w2))) →
      List.countP Event.isConsumeMetrics (Run k (Setup k r) e).env.trace
        = List.countP Event.isConsumeMetrics e.trace ∧
      List.countP Event.isMetricsData (Run k (Setup k r) e).env.trace
        = List.countP Event.isMetricsData e.trace ∧
      List.countP Event.isAPICall (Run k (Setup k r) e).env.trace
        = List.countP Event.isAPICall e.trace ∧
      List.countP Event.isLogError (Run k (Setup k r) e).env.trace
        = List.countP Event.isLogError e.trace + 1 ∧
      (Run k (Setup k r) e).r = Setup k r) ∧
    (¬((∃ err w1, (k.NewStatsProvider r.restClient).StatsSummary e.world
          = (Except.error err, w1)) ∨
      (∃ summary w1 err w2, (k.NewStatsProvider r.restClient).StatsSummary e.world
          = (Except.ok summary, w1) ∧ r.extraMetadataLabels ≠ [] ∧
        (k.NewMetadataProvider r.restClient).Pods w1 = (Except.error err, w2))) →
      List.countP Event.isConsumeMetrics (Run k (Setup k r) e).env.trace
        = List.countP Event.isConsumeMetrics e.trace + 1) := by
  constructor
  · rintro (⟨err, w1, hstats⟩ | ⟨summary, w1, err, w2, hstats, hextra, hpods⟩)
    · rw [Run_stats_error k r e err w1 hstats]
      simp [Env.step, Env.record, List.countP_append, Event.isConsumeMetrics,
        Event.isMetricsData, Event.isAPICall, Event.isLogError]
    · rw [Run_pods_error k r e summary w1 w2 err hstats hextra hpods]
      simp [Env.step, Env.record, List.countP_append, Event.isConsumeMetrics,
        Event.isMetricsData, Event.isAPICall, Event.isLogError]
  · intro hnot
    obtain ⟨res, w1, hstats⟩ : ∃ res w1,
        (k.NewStatsProvider r.restClient).StatsSummary e.world = (res, w1) := ⟨_, _, rfl⟩
    cases res with
    | error err => exact absurd (Or.inl ⟨err, w1, hstats⟩) hnot
    | ok summary =>
      by_cases hextra : r.extraMetadataLabels = []
      · rw [Run_no_extra_labels k r e summary w1 hstats hextra,
          translateAndConsume_consumes_once]
        simp [Env.step, List.countP_append, Event.isConsumeMetrics]
      · obtain ⟨res2, w2, hpods⟩ : ∃ res2 w2,
            (k.NewMetadataProvider r.restClient).Pods w1 = (res2, w2) := ⟨_, _, rfl⟩
        cases res2 with
        | error err =>
          exact absurd (Or.inr ⟨summary, w1, err, w2, hstats, hextra, hpods⟩) hnot
        | ok podsMetadata =>
          rw [Run_pods_ok k r e summary w1 w2 podsMetadata hstats hextra hpods,
            translateAndConsume_consumes_once]
          simp [Env.step, List.countP_append, Event.isConsumeMetrics]

/-- C1 on a rest client whose stats endpoint is down. -/
theorem failed_fetch_consumes_nothing_witness :
    List.countP Event.isConsumeMetrics
      (Run demoDeps (Setup demoDeps (demoRunnable (false, true) ["container.id"]
        (some demoClient))) demoEnv).env.trace
      = List.countP Event.isConsumeMetrics demoEnv.trace ∧
    List.countP Event.isMetricsData
      (Run demoDeps (Setup demoDeps (demoRunnable (false, true) ["container.id"]
        (some demoClient))) demoEnv).env.trace
      = List.countP Event.isMetricsData demoEnv.trace ∧
    List.countP Event.isAPICall
      (Run demoDeps (Setup demoDeps (demoRunnable (false, true) ["container.id"]
        (some demoClient))) demoEnv).env.trace
      = List.countP Event.isAPICall demoEnv.trace ∧
    List.countP Event.isLogError
      (Run demoDeps (Setup demoDeps (demoRunnable (false, true) ["container.id"]
        (some demoClient))) demoEnv).env.trace
      = List.countP Event.isLogError demoEnv.trace + 1 ∧
    (Run demoDeps (Setup demoDeps (demoRunnable (false, true) ["container.id"]
        (some demoClient))) demoEnv).r
      = Setup demoDeps (demoRunnable (false, true) ["container.id"] (some demoClient)) :=
  (failed_fetch_consumes_nothing demoDeps
    (demoRunnable (false, true) ["container.id"] (some demoClient)) demoEnv).1
    (Or.inl ⟨"connection refused", 1, rfl⟩)

/-- C7: in a cycle in which the stats fetch succeeds, `metadataProvider.Pods`
is called exactly once when `extraMetadataLabels` is non-empty, and not at all
when it is empty.  In that case the translation still proceeds:
`kubelet.MetricsData` is called right after the stats fetch on the summary
fetched, with nil pod metadata and the setter of the runnable; the batch built
with `OCToMetrics` from what it returns is what the consumer is called with,
once, right after the translation; and the runnable is left as the translation
left it. -/
theorem pods_fetched_iff_extra_labels {X : External} (k : Deps X) (r : runnable X)
    (e : Env X) (summary : X.Summary) (w1 : X.World)
    (hstats : (k.NewStatsProvider r.restClient).StatsSummary e.world
      = (Except.ok summary, w1)) :
    (r.extraMetadataLabels ≠ [] →
      List.countP Event.isPods (Run k (Setup k r) e).env.trace
        = List.countP Event.isPods e.trace + 1) ∧
    (r.extraMetadataLabels = [] →
      List.countP Event.isPods (Run k (Setup k r) e).env.trace
        = List.countP Event.isPods e.trace ∧
      (∃ post, (Run k (Setup k r) e).env.trace
        = e.trace ++ Event.statsSummary :: Event.metricsData none :: post) ∧
      List.countP Event.isConsumeMetrics (Run k (Setup k r) e).env.trace
        = List.countP Event.isConsumeMetrics e.trace + 1 ∧
      ∀ t : TranslationResult X (List X.MetricsData),
        t = runTranslation k
          (k.MetricsData summary r.extraMetadataLabels none r.metricGroupsToCollect)
          (Setup k r) ((e.step Event.statsSummary w1).record (Event.metricsData none)) →
        (∃ evs, t.env.trace
          = e.trace ++ Event.statsSummary :: Event.metricsData none :: evs) ∧
        (∃ tail, (Run k (Setup k r) e).env.trace
          = t.env.trace ++ Event.startMetricsReceiveOp ::
              Event.consumeMetrics
                (t.result.foldl (fun acc md => acc ++ k.OCToMetrics md) []) :: tail) ∧
        (Run k (Setup k r) e).r = t.r) := by
  constructor
  · intro hextra
    obtain ⟨res2, w2, hpods⟩ : ∃ res2 w2,
        (k.NewMetadataProvider r.restClient).Pods w1 = (res2, w2) := ⟨_, _, rfl⟩
    cases res2 with
    | error err =>
      rw [Run_pods_error k r e summary w1 w2 err hstats hextra hpods]
      simp [Env.step, Env.record, List.countP_append, Event.isPods]
    | ok podsMetadata =>
      rw [Run_pods_ok k r e summary w1 w2 podsMetadata hstats hextra hpods,
        translateAndConsume_fetches_no_pods]
      simp [Env.step, List.countP_append, Event.isPods]
  · intro hextra
    rw [Run_no_extra_labels k r e summary w1 hstats hextra]
    refine ⟨?_, ?_, ?_, ?_⟩
    · rw [translateAndConsume_fetches_no_pods]
      simp [Env.step, List.countP_append, Event.isPods]
    · obtain ⟨post, hpost⟩ := translateAndConsume_translates k (Setup k r) summary none
        (e.step Event.statsSummary w1)
      exact ⟨post, by rw [hpost]; simp [Env.step]⟩
    · rw [translateAndConsume_consumes_once]
      simp [Env.step, List.countP_append, Event.isConsumeMetrics]
    · intro t ht
      subst ht
      refine ⟨?_, ?_⟩
      · obtain ⟨evs, hevs⟩ := runTranslation_trace_extends k
          (k.MetricsData summary r.extraMetadataLabels none r.metricGroupsToCollect)
          (Setup k r) ((e.step Event.statsSummary w1).record (Event.metricsData none))
        exact ⟨evs, by rw [hevs]; simp [Env.step, Env.record]⟩
      · exact translateAndConsume_consumes_translation k (Setup k r) summary none
          (e.step Event.statsSummary w1)

/-- C7 on a runnable without extra metadata labels, whose pods endpoint is
down: the translation of the small instance runs and its batch `[1]` reaches
the consumer. -/
theorem pods_fetched_iff_extra_labels_witness :
    List.countP Event.isPods
      (Run demoDeps (Setup demoDeps (demoRunnable (true, false) [] (some demoClient)))
        demoEnv).env.trace = List.countP Event.isPods demoEnv.trace ∧
    (∃ tail, (Run demoDeps (Setup demoDeps (demoRunnable (true, false) [] (some demoClient)))
        demoEnv).env.trace
      = [Event.statsSummary, Event.metricsData none,
          Event.getPersistentVolumeClaim "ns1" "pvc-a", Event.getPersistentVolume "vol-1"] ++
        Event.startMetricsReceiveOp :: Event.consumeMetrics [(1 : Nat)] :: tail) ∧
    (Run demoDeps (Setup demoDeps (demoRunnable (true, false) [] (some demoClient)))
        demoEnv).r.cachedVolumeLabels.lookup "pod-1/data" = some zoneLabels :=
  have h := (pods_fetched_iff_extra_labels demoDeps
    (demoRunnable (true, false) [] (some demoClient)) demoEnv () 1 rfl).2 rfl
  have h4 := h.2.2.2 _ rfl
  ⟨h.1, h4.2.1, h4.2.2 ▸ rfl⟩

/-- C10: a cycle (a call of `Run` after `Setup`) returns nil, whatever its
steps answer, and a failure is logged or reported instead.  A failed stats
fetch and a failed metadata fetch are logged with their error, and nothing else
happens.  When both fetches went through, the batch translated from the summary
is handed to the consumer once; a rejection is logged with the error of the
consumer and reported to `EndMetricsReceiveOp` with no points, nothing is
retried and the runnable stays as the translation left it; an accepted batch is
reported with its point count. -/
theorem Run_returns_nil {X : External} (k : Deps X) (r : runnable X) (e : Env X) :
    (Run k (Setup k r) e).outcome = Outcome.returned none ∧
    (∀ err w1,
      (k.NewStatsProvider r.restClient).StatsSummary e.world = (Except.error err, w1) →
      (Run k (Setup k r) e).env.trace = e.trace ++
        [Event.statsSummary,
         Event.logError "call to /stats/summary endpoint failed" err]) ∧
    (∀ summary w1 err w2,
      (k.NewStatsProvider r.restClient).StatsSummary e.world = (Except.ok summary, w1) →
      r.extraMetadataLabels ≠ [] →
      (k.NewMetadataProvider r.restClient).Pods w1 = (Except.error err, w2) →
      (Run k (Setup k r) e).env.trace = e.trace ++
        [Event.statsSummary, Event.pods,
         Event.logError "call to /pods endpoint failed" err]) ∧
    (∀ summary w1 podsMetadata e1 (t : TranslationResult X (List X.MetricsData)) metrics,
      (k.NewStatsProvider r.restClient).StatsSummary e.world = (Except.ok summary, w1) →
      ((r.extraMetadataLabels = [] ∧ podsMetadata = none ∧
          e1 = e.step Event.statsSummary w1) ∨
       (∃ pods w2, r.extraMetadataLabels ≠ [] ∧
          (k.NewMetadataProvider r.restClient).Pods w1 = (Except.ok pods, w2) ∧
          podsMetadata = some pods ∧
          e1 = (e.step Event.statsSummary w1).step Event.pods w2)) →
      t = runTranslation k
        (k.MetricsData summary r.extraMetadataLabels podsMetadata r.metricGroupsToCollect)
        (Setup k r) (e1.record (Event.metricsData podsMetadata)) →
      metrics = t.result.foldl (fun acc md => acc ++ k.OCToMetrics md) [] →
      (∀ err w, r.consumer.ConsumeMetrics t.env.world metrics = (some err, w) →
        (Run k (Setup k r) e).env.trace = t.env.trace ++
          [Event.startMetricsReceiveOp, Event.consumeMetrics metrics,
           Event.logError "ConsumeMetricsData failed" err,
           Event.endMetricsReceiveOp 0 (some err)] ∧
        (Run k (Setup k r) e).env.world = w ∧
        (Run k (Setup k r) e).r = t.r) ∧
      (∀ w, r.consumer.ConsumeMetrics t.env.world metrics = (none, w) →
        (Run k (Setup k r) e).env.trace = t.env.trace ++
          [Event.startMetricsReceiveOp, Event.consumeMetrics metrics,
           Event.endMetricsReceiveOp (k.DataPointCount metrics) none] ∧
        (Run k (Setup k r) e).env.world = w ∧
        (Run k (Setup k r) e).r = t.r)) := by
  refine ⟨?_, ?_, ?_, ?_⟩
  · obtain ⟨res, w1, hstats⟩ : ∃ res w1,
        (k.NewStatsProvider r.restClient).StatsSummary e.world = (res, w1) := ⟨_, _, rfl⟩
    cases res with
    | error err => rw [Run_stats_error k r e err w1 hstats]
    | ok summary =>
      by_cases hextra : r.extraMetadataLabels = []
      · rw [Run_no_extra_labels k r e summary w1 hstats hextra]
        exact translateAndConsume_outcome _ _ _ _ _
      · obtain ⟨res2, w2, hpods⟩ : ∃ res2 w2,
            (k.NewMetadataProvider r.restClient).Pods w1 = (res2, w2) := ⟨_, _, rfl⟩
        cases res2 with
        | error err => rw [Run_pods_error k r e summary w1 w2 err hstats hextra hpods]
        | ok podsMetadata =>
          rw [Run_pods_ok k r e summary w1 w2 podsMetadata hstats hextra hpods]
          exact translateAndConsume_outcome _ _ _ _ _
  · intro err w1 hstats
    rw [Run_stats_error k r e err w1 hstats]
    simp [Env.step, Env.record]
  · intro summary w1 err w2 hstats hextra hpods
    rw [Run_pods_error k r e summary w1 w2 err hstats hextra hpods]
    simp [Env.step, Env.record]
  · intro summary w1 podsMetadata e1 t metrics hstats hpath ht hm
    have hrun : Run k (Setup k r) e = translateAndConsume k (Setup k r) summary podsMetadata e1 := by
      rcases hpath with ⟨hextra, hpm, he1⟩ | ⟨pods, w2, hextra, hpods, hpm, he1⟩
      · rw [hpm, he1]
        exact Run_no_extra_labels k r e summary w1 hstats hextra
      · rw [hpm, he1]
        exact Run_pods_ok k r e summary w1 w2 pods hstats hextra hpods
    rw [hrun]
    subst hm
    subst ht
    constructor
    · intro err w hcons
      rw [translateAndConsume_rejected k (Setup k r) summary podsMetadata e1 err w hcons]
      exact ⟨rfl, rfl, rfl⟩
    · intro w hcons
      rw [translateAndConsume_accepted k (Setup k r) summary podsMetadata e1 w hcons]
      exact ⟨rfl, rfl, rfl⟩

/-- C10 on a consumer that rejects every batch: the cycle returns nil, and the
rejection is logged and reported. -/
theorem Run_returns_nil_witness :
    (Run demoDeps (Setup demoDeps (newRunnable demoRejecting (true, true)
      { extraMetadataLabels := [], metricGroupsToCollect := ∅, k8sAPIClient := none }))
      demoEnv).outcome = Outcome.returned none ∧
    (Run demoDeps (Setup demoDeps (newRunnable demoRejecting (true, true)
      { extraMetadataLabels := [], metricGroupsToCollect := ∅, k8sAPIClient := none }))
      demoEnv).env.trace =
      [Event.statsSummary, Event.metricsData none] ++
      [Event.startMetricsReceiveOp, Event.consumeMetrics [(1 : Nat)],
       Event.logError "ConsumeMetricsData failed" "queue is full",
       Event.endMetricsReceiveOp 0 (some "queue is full")] :=
  have h := Run_returns_nil demoDeps (newRunnable demoRejecting (true, true)
      { extraMetadataLabels := [], metricGroupsToCollect := ∅, k8sAPIClient := none })
      demoEnv
  ⟨h.1, ((h.2.2.2 () 1 none _ _ _ rfl (Or.inl ⟨rfl, rfl, rfl⟩) rfl rfl).1
    "queue is full" 2 rfl).1⟩

end KubeletStats
